import Mathlib

/-
Verification of the location-resolver hook in src/src/hooks/use-geolocation.ts.

The hook runs a fixed-order fallback cascade: a high-accuracy device fix,
then a low-accuracy device fix, then IP-based geolocation over HTTP, and
finally a categorized error message.  We embed the cascade as a pure
function from an environment (whether the platform exposes geolocation, an
oracle answering getCurrentPosition requests, and the result of the single
fetch to the IP endpoint) to the list of observable events the run emits:
state-container replacements and external calls, in program order.

Numbers (coordinates, error codes) are modelled as Rat / Int; the JavaScript
truthiness test on the IP response fields is modelled as "present and
nonzero", which is exact for every representable numeric value.
-/

namespace WeatherWeb

/-- Coordinates as in src/api/types: a latitude/longitude pair. -/
structure Coordinates where
  lat : Rat
  lon : Rat
deriving DecidableEq, Repr

/-- The GeolocationState container of the hook (use-geolocation.ts lines 86-90). -/
structure GeolocationState where
  coordinates : Option Coordinates
  error : Option String
  isLoading : Bool
deriving DecidableEq, Repr

/-- The coords field of a browser GeolocationPosition. -/
structure PositionCoords where
  latitude : Rat
  longitude : Rat
deriving DecidableEq, Repr

/-- A browser GeolocationPosition (only the part the hook reads). -/
structure GeolocationPosition where
  coords : PositionCoords
deriving DecidableEq, Repr

/-- A browser GeolocationPositionError as the hook sees it: the switch reads
only the numeric code, which may also be absent on an arbitrary thrown object. -/
structure PositionError where
  code : Option Int
deriving DecidableEq, Repr

/-- The options record passed to getCurrentPosition. -/
structure PositionOptions where
  enableHighAccuracy : Bool
  timeout : Nat
  maximumAge : Nat
deriving DecidableEq, Repr

/-- The JSON body of the IP-geolocation endpoint, restricted to the two
numeric fields the hook reads; a missing field is none. -/
structure IPResponseData where
  latitude : Option Rat
  longitude : Option Rat
deriving DecidableEq, Repr

/-- A getCurrentPosition rejection reason: none models a falsy value (the
JavaScript code guards with gpsError?.code and lowAccuracyError ||
highAccuracyError), some an error object. -/
abbrev GeoRejection := Option PositionError

/-- The platform environment one cascade runs against: whether
navigator.geolocation exists, what each getCurrentPosition request returns,
and what the single fetch of the IP endpoint yields. -/
structure GeoEnv where
  geolocationSupported : Bool
  geo : PositionOptions → Except GeoRejection GeolocationPosition
  fetchResult : Except Unit IPResponseData

/-- An observable event of one cascade run: a wholesale replacement of the
state container, a getCurrentPosition call, or an HTTP GET. -/
inductive Event where
  | setState (s : GeolocationState)
  | getCurrentPosition (opts : PositionOptions)
  | fetchGet (url : String)
deriving DecidableEq, Repr

/-- The state the hook is initialized with (lines 93-97). -/
def initialState : GeolocationState :=
  { coordinates := none, error := none, isLoading := true }

/-- Options of tryHighAccuracy (lines 114-118). -/
def highAccuracyOptions : PositionOptions :=
  { enableHighAccuracy := true, timeout := 10000, maximumAge := 300000 }

/-- Options of tryLowAccuracy (lines 125-129). -/
def lowAccuracyOptions : PositionOptions :=
  { enableHighAccuracy := false, timeout := 15000, maximumAge := 600000 }

/-- The fixed IP-geolocation endpoint (line 136). -/
def ipGeolocationUrl : String := "https://ipapi.co/json/"

def notSupportedMessage : String := "Geolocation is not supported by your browser"

def permissionDeniedMessage : String :=
  "Location permission denied. Please enable location access in your browser settings."

def positionUnavailableMessage : String :=
  "Location is currently unavailable. Please check your GPS/WiFi connection and try again."

def timeoutMessage : String := "Location request timed out. Please try again."

def genericMessage : String :=
  "Unable to determine your location. Please enable location services and try again."

/-- tryIPGeolocation (lines 134-148): succeeds exactly when the fetch
succeeded and both fields are truthy (present and nonzero), returning
lat := data.latitude, lon := data.longitude; every other outcome is caught
and rethrown as an unexposed failure. -/
def tryIPGeolocation (fetchResult : Except Unit IPResponseData) :
    Except Unit Coordinates :=
  match fetchResult with
  | .error _ => .error ()
  | .ok data =>
    match data.latitude, data.longitude with
    | some la, some lo =>
      if la ≠ 0 ∧ lo ≠ 0 then .ok { lat := la, lon := lo } else .error ()
    | _, _ => .error ()

/-- The switch on gpsError?.code in the final-failure path (lines 199-214). -/
def selectErrorMessage (gpsError : GeoRejection) : String :=
  match gpsError with
  | some e =>
    match e.code with
    | some 1 => permissionDeniedMessage
    | some 2 => positionUnavailableMessage
    | some 3 => timeoutMessage
    | _ => genericMessage
  | none => genericMessage

/-- getLocationWithFallback (lines 99-224) as the event trace of one run
starting from the previous visible state: first the in-flight transition
(line 100, spreading prev), then the unsupported check, then the three
strategies in order with their terminal setState, and on total failure the
switch on lowAccuracyError || highAccuracyError. -/
def getLocationWithFallback (env : GeoEnv) (prev : GeolocationState) :
    List Event :=
  Event.setState { prev with isLoading := true, error := none } ::
  (if !env.geolocationSupported then
    [Event.setState { coordinates := none, error := some notSupportedMessage,
                      isLoading := false }]
  else
    Event.getCurrentPosition highAccuracyOptions ::
    (match env.geo highAccuracyOptions with
    | .ok position =>
      [Event.setState { coordinates := some { lat := position.coords.latitude,
                                              lon := position.coords.longitude },
                        error := none, isLoading := false }]
    | .error highAccuracyError =>
      Event.getCurrentPosition lowAccuracyOptions ::
      (match env.geo lowAccuracyOptions with
      | .ok position =>
        [Event.setState { coordinates := some { lat := position.coords.latitude,
                                                lon := position.coords.longitude },
                          error := none, isLoading := false }]
      | .error lowAccuracyError =>
        Event.fetchGet ipGeolocationUrl ::
        (match tryIPGeolocation env.fetchResult with
        | .ok coordinates =>
          [Event.setState { coordinates := some coordinates, error := none,
                            isLoading := false }]
        | .error _ =>
          [Event.setState { coordinates := none,
                            error := some (selectErrorMessage
                              (lowAccuracyError <|> highAccuracyError)),
                            isLoading := false }]))))

/-- getLocation (lines 227-229): the manual trigger just re-invokes the
fallback cascade. -/
def getLocation (env : GeoEnv) (prev : GeolocationState) : List Event :=
  getLocationWithFallback env prev

/-- Replay an event trace over the state container: each setState replaces
it wholesale, external calls leave it unchanged. -/
def applyEvents (prev : GeolocationState) (events : List Event) :
    GeolocationState :=
  events.foldl (fun s e => match e with | .setState s2 => s2 | _ => s) prev

/-- The state the container holds once one cascade has settled. -/
def resolveFinal (env : GeoEnv) (prev : GeolocationState) : GeolocationState :=
  applyEvents prev (getLocationWithFallback env prev)

/-- The external calls of a trace, in order, with setState dropped. -/
def externalCalls (events : List Event) : List Event :=
  events.filter (fun e => match e with | .setState _ => false | _ => true)

/-- The five user-visible error strings the hook can ever store. -/
def allowedErrorMessages : List String :=
  [notSupportedMessage, permissionDeniedMessage, positionUnavailableMessage,
   timeoutMessage, genericMessage]

/-- Modelled from the spec: the final-failure message selection as §4.1
step 6 words it, switching on the numeric code of Strategy 2's error if
present, else Strategy 1's. -/
def claimMessageSelection (strategy2Error strategy1Error : GeoRejection) :
    String :=
  match (match strategy2Error with
         | some e => e.code
         | none => strategy1Error.bind PositionError.code) with
  | some 1 => permissionDeniedMessage
  | some 2 => positionUnavailableMessage
  | some 3 => timeoutMessage
  | _ => genericMessage

/-- C1: for every completed resolution, the final state has exactly one of
coordinates/error non-null and isLoading is false. -/
theorem settled_state_exclusive (env : GeoEnv) (prev : GeolocationState) :
    (resolveFinal env prev).isLoading = false ∧
      (((resolveFinal env prev).coordinates.isSome = true ∧
          (resolveFinal env prev).error = none) ∨
        ((resolveFinal env prev).coordinates = none ∧
          (resolveFinal env prev).error.isSome = true)) := by
  unfold resolveFinal getLocationWithFallback
  cases hs : env.geolocationSupported with
  | false => simp [applyEvents]
  | true =>
    rcases h1 : env.geo highAccuracyOptions with e1 | p1
    · rcases h2 : env.geo lowAccuracyOptions with e2 | p2
      · rcases h3 : tryIPGeolocation env.fetchResult with u | c
        · simp [applyEvents, h1, h2, h3]
        · simp [applyEvents, h1, h2, h3]
      · simp [applyEvents, h1, h2]
    · simp [applyEvents, h1]

/-- C2: if Strategy 1 succeeds, the final coordinates are Strategy 1's
latitude/longitude, the error is cleared, and neither the low-accuracy
request nor any HTTP fetch occurs in the run. -/
theorem strategy1_success (env : GeoEnv) (prev : GeolocationState)
    (position : GeolocationPosition)
    (hsup : env.geolocationSupported = true)
    (h1 : env.geo highAccuracyOptions = .ok position) :
    (resolveFinal env prev).coordinates =
        some { lat := position.coords.latitude,
               lon := position.coords.longitude } ∧
      (resolveFinal env prev).error = none ∧
      Event.getCurrentPosition lowAccuracyOptions ∉
        getLocationWithFallback env prev ∧
      ∀ url, Event.fetchGet url ∉ getLocationWithFallback env prev := by
  unfold resolveFinal getLocationWithFallback
  simp only [hsup, h1, Bool.not_true]
  refine ⟨by simp [applyEvents], by simp [applyEvents], ?_, ?_⟩
  · simp only [Bool.false_eq_true, if_false, List.mem_cons, List.mem_singleton]
    rintro (h | h | h) <;> simp_all [highAccuracyOptions, lowAccuracyOptions]
  · intro url
    simp only [Bool.false_eq_true, if_false, List.mem_cons, List.mem_singleton]
    rintro (h | h | h) <;> simp_all

/-- Witness for strategy1_success at a concrete environment. -/
theorem strategy1_success_witness :
    (resolveFinal
        ⟨true, fun _ => .ok ⟨⟨5, 6⟩⟩, .error ()⟩ initialState).coordinates =
        some { lat := 5, lon := 6 } ∧
      (resolveFinal
          ⟨true, fun _ => .ok ⟨⟨5, 6⟩⟩, .error ()⟩ initialState).error = none ∧
      Event.getCurrentPosition lowAccuracyOptions ∉
        getLocationWithFallback
          ⟨true, fun _ => .ok ⟨⟨5, 6⟩⟩, .error ()⟩ initialState ∧
      ∀ url, Event.fetchGet url ∉
        getLocationWithFallback
          ⟨true, fun _ => .ok ⟨⟨5, 6⟩⟩, .error ()⟩ initialState :=
  strategy1_success ⟨true, fun _ => .ok ⟨⟨5, 6⟩⟩, .error ()⟩ initialState
    ⟨⟨5, 6⟩⟩ rfl rfl

/-- The code's selection on lowAccuracyError || highAccuracyError agrees
with the spec's wording (Strategy 2's code if its error is present, else
Strategy 1's). -/
theorem selectErrorMessage_eq_claim (e2 e1 : GeoRejection) :
    selectErrorMessage (e2 <|> e1) = claimMessageSelection e2 e1 := by
  rcases e2 with _ | e
  · rcases e1 with _ | f
    · simp [selectErrorMessage, claimMessageSelection]
    · simp [selectErrorMessage, claimMessageSelection]
  · simp [selectErrorMessage, claimMessageSelection]

/-- On total failure the final state replayed from any branch is the
switch on lowAccuracyError || highAccuracyError. -/
theorem resolveFinal_all_fail (env : GeoEnv) (prev : GeolocationState)
    (e1 e2 : GeoRejection)
    (hsup : env.geolocationSupported = true)
    (h1 : env.geo highAccuracyOptions = .error e1)
    (h2 : env.geo lowAccuracyOptions = .error e2)
    (h3 : tryIPGeolocation env.fetchResult = .error ()) :
    resolveFinal env prev =
      { coordinates := none,
        error := some (selectErrorMessage (e2 <|> e1)), isLoading := false } := by
  unfold resolveFinal getLocationWithFallback
  simp [hsup, h1, h2, h3, applyEvents]

/-- C3: when all three strategies fail, the user-facing message is chosen by
switching on Strategy 2's error code if its error is present, else Strategy
1's — code 1 permission denied, 2 position unavailable, 3 timed out,
anything else the generic string — with Strategy 2's code deciding
regardless of Strategy 1's. -/
theorem all_fail_message_selection (env : GeoEnv) (prev : GeolocationState)
    (e1 e2 : GeoRejection)
    (hsup : env.geolocationSupported = true)
    (h1 : env.geo highAccuracyOptions = .error e1)
    (h2 : env.geo lowAccuracyOptions = .error e2)
    (h3 : tryIPGeolocation env.fetchResult = .error ()) :
    (resolveFinal env prev).error = some (claimMessageSelection e2 e1) ∧
      (resolveFinal env prev).coordinates = none := by
  rw [resolveFinal_all_fail env prev e1 e2 hsup h1 h2 h3]
  exact ⟨by rw [selectErrorMessage_eq_claim], rfl⟩

/-- Witness for all_fail_message_selection: Strategy 1 code 2, Strategy 2
code 1, so the permission-denied string wins. -/
theorem all_fail_message_selection_witness :
    (resolveFinal
        ⟨true,
         fun opts =>
           match opts.enableHighAccuracy with
           | true => .error (some ⟨some 2⟩)
           | false => .error (some ⟨some 1⟩),
         .error ()⟩ initialState).error =
        some (claimMessageSelection (some ⟨some 1⟩) (some ⟨some 2⟩)) ∧
      (resolveFinal
          ⟨true,
           fun opts =>
             match opts.enableHighAccuracy with
             | true => .error (some ⟨some 2⟩)
             | false => .error (some ⟨some 1⟩),
           .error ()⟩ initialState).coordinates = none :=
  all_fail_message_selection _ initialState (some ⟨some 2⟩) (some ⟨some 1⟩)
    rfl rfl rfl rfl

/-- C7: when all three strategies fail and Strategy 2 produced no error
object, the message is selected from Strategy 1's error code; in
particular Strategy 1 code 2 yields the position-unavailable string. -/
theorem strategy1_code_decides (env : GeoEnv) (prev : GeolocationState)
    (e1 : GeoRejection)
    (hsup : env.geolocationSupported = true)
    (h1 : env.geo highAccuracyOptions = .error e1)
    (h2 : env.geo lowAccuracyOptions = .error none)
    (h3 : tryIPGeolocation env.fetchResult = .error ()) :
    (resolveFinal env prev).error = some (claimMessageSelection none e1) ∧
      ∀ e : PositionError, e1 = some e → e.code = some 2 →
        (resolveFinal env prev).error = some positionUnavailableMessage := by
  rw [resolveFinal_all_fail env prev e1 none hsup h1 h2 h3]
  refine ⟨by rw [selectErrorMessage_eq_claim], ?_⟩
  rintro e rfl hcode
  simp [selectErrorMessage, hcode]

/-- Witness for strategy1_code_decides at Strategy 1 code 2. -/
theorem strategy1_code_decides_witness :
    (resolveFinal
        ⟨true,
         fun opts =>
           match opts.enableHighAccuracy with
           | true => .error (some ⟨some 2⟩)
           | false => .error none,
         .error ()⟩ initialState).error =
        some (claimMessageSelection none (some ⟨some 2⟩)) ∧
      ∀ e : PositionError, (some ⟨some 2⟩ : GeoRejection) = some e →
        e.code = some 2 →
        (resolveFinal
            ⟨true,
             fun opts =>
               match opts.enableHighAccuracy with
               | true => .error (some ⟨some 2⟩)
               | false => .error none,
             .error ()⟩ initialState).error =
          some positionUnavailableMessage :=
  strategy1_code_decides _ initialState (some ⟨some 2⟩) rfl rfl rfl rfl

/-- C4 counterexample: with both numeric fields present in the IP response
but latitude equal to 0, the truthiness test on data.latitude fails, so
Strategy 3 fails and the run ends in an error state instead of the
coordinates the claim predicts. -/
theorem ip_present_fields_refuted :
    (⟨true, fun _ => .error (some ⟨some 3⟩),
        .ok { latitude := some 0, longitude := some (228 / 5) }⟩ :
          GeoEnv).fetchResult =
        .ok { latitude := some 0, longitude := some (228 / 5) } ∧
      tryIPGeolocation
        (⟨true, fun _ => .error (some ⟨some 3⟩),
            .ok { latitude := some 0, longitude := some (228 / 5) }⟩ :
              GeoEnv).fetchResult = .error () ∧
      (resolveFinal
          ⟨true, fun _ => .error (some ⟨some 3⟩),
           .ok { latitude := some 0, longitude := some (228 / 5) }⟩
          initialState).coordinates = none ∧
      (resolveFinal
          ⟨true, fun _ => .error (some ⟨some 3⟩),
           .ok { latitude := some 0, longitude := some (228 / 5) }⟩
          initialState).error = some timeoutMessage := by
  refine ⟨rfl, by simp [tryIPGeolocation], ?_, ?_⟩ <;>
    simp [resolveFinal, getLocationWithFallback, applyEvents,
      tryIPGeolocation, selectErrorMessage]

/-- C4 amended: if both IP-response fields are present and nonzero (truthy),
Strategy 3 succeeds and the final coordinates are latitude/longitude; if a
field is absent or zero, or the fetch fails, Strategy 3 fails. -/
theorem ip_truthy_fields (env : GeoEnv) (prev : GeolocationState)
    (e1 e2 : GeoRejection)
    (hsup : env.geolocationSupported = true)
    (h1 : env.geo highAccuracyOptions = .error e1)
    (h2 : env.geo lowAccuracyOptions = .error e2) :
    (∀ la lo : Rat, env.fetchResult = .ok ⟨some la, some lo⟩ →
        la ≠ 0 → lo ≠ 0 →
      tryIPGeolocation env.fetchResult = .ok { lat := la, lon := lo } ∧
        (resolveFinal env prev).coordinates = some { lat := la, lon := lo } ∧
        (resolveFinal env prev).error = none) ∧
      (∀ data : IPResponseData, env.fetchResult = .ok data →
        (data.latitude = none ∨ data.longitude = none ∨
          data.latitude = some 0 ∨ data.longitude = some 0) →
        tryIPGeolocation env.fetchResult = .error ()) ∧
      (∀ u : Unit, env.fetchResult = .error u →
        tryIPGeolocation env.fetchResult = .error ()) := by
  refine ⟨?_, ?_, ?_⟩
  · intro la lo hf hla hlo
    have hip : tryIPGeolocation env.fetchResult = .ok { lat := la, lon := lo } := by
      rw [hf]; simp [tryIPGeolocation, hla, hlo]
    refine ⟨hip, ?_, ?_⟩ <;>
      · unfold resolveFinal getLocationWithFallback
        simp [hsup, h1, h2, hip, applyEvents]
  · intro data hf hcase
    rw [hf]
    rcases hla : data.latitude with _ | v
    · simp [tryIPGeolocation, hla]
    · rcases hlo : data.longitude with _ | w
      · simp [tryIPGeolocation, hla, hlo]
      · rcases hcase with h | h | h | h
        · rw [hla] at h; exact Option.noConfusion h
        · rw [hlo] at h; exact Option.noConfusion h
        · rw [hla] at h
          have hv : v = 0 := by injection h
          simp [tryIPGeolocation, hla, hlo, hv]
        · rw [hlo] at h
          have hw : w = 0 := by injection h
          simp [tryIPGeolocation, hla, hlo, hw]
  · intro u hf
    rw [hf]; rfl

/-- Witness for ip_truthy_fields: both GPS strategies fail and the IP
endpoint returns latitude 12.3, longitude 45.6. -/
theorem ip_truthy_fields_witness :
    (∀ la lo : Rat,
        (⟨true, fun _ => .error none,
            .ok { latitude := some (123 / 10), longitude := some (228 / 5) }⟩ :
              GeoEnv).fetchResult =
          .ok { latitude := some la, longitude := some lo } →
        la ≠ 0 → lo ≠ 0 →
      tryIPGeolocation
          (⟨true, fun _ => .error none,
              .ok { latitude := some (123 / 10),
                    longitude := some (228 / 5) }⟩ : GeoEnv).fetchResult =
          .ok { lat := la, lon := lo } ∧
        (resolveFinal
            ⟨true, fun _ => .error none,
             .ok { latitude := some (123 / 10), longitude := some (228 / 5) }⟩
            initialState).coordinates = some { lat := la, lon := lo } ∧
        (resolveFinal
            ⟨true, fun _ => .error none,
             .ok { latitude := some (123 / 10), longitude := some (228 / 5) }⟩
            initialState).error = none) ∧
      (∀ data : IPResponseData,
        (⟨true, fun _ => .error none,
            .ok { latitude := some (123 / 10), longitude := some (228 / 5) }⟩ :
              GeoEnv).fetchResult = .ok data →
        (data.latitude = none ∨ data.longitude = none ∨
          data.latitude = some 0 ∨ data.longitude = some 0) →
        tryIPGeolocation
          (⟨true, fun _ => .error none,
              .ok { latitude := some (123 / 10),
                    longitude := some (228 / 5) }⟩ : GeoEnv).fetchResult =
          .error ()) ∧
      (∀ u : Unit,
        (⟨true, fun _ => .error none,
            .ok { latitude := some (123 / 10), longitude := some (228 / 5) }⟩ :
              GeoEnv).fetchResult = .error u →
        tryIPGeolocation
          (⟨true, fun _ => .error none,
              .ok { latitude := some (123 / 10),
                    longitude := some (228 / 5) }⟩ : GeoEnv).fetchResult =
          .error ()) :=
  ip_truthy_fields
    ⟨true, fun _ => .error none,
      .ok { latitude := some (123 / 10), longitude := some (228 / 5) }⟩
    initialState none none rfl rfl rfl

/-- C5 counterexample: starting a cascade from a previously successful state
leaves the old coordinates in place during the in-flight phase (line 100
spreads prev), so the in-flight state does not have coordinates absent. -/
theorem inflight_coordinates_retained_refuted :
    (getLocationWithFallback ⟨true, fun _ => .error none, .error ()⟩
        { coordinates := some { lat := 1, lon := 2 }, error := none,
          isLoading := false }).head? =
      some (Event.setState { coordinates := some { lat := 1, lon := 2 },
                             error := none, isLoading := true }) ∧
      (some { lat := 1, lon := 2 } : Option Coordinates) ≠ none :=
  ⟨rfl, by decide⟩

/-- C5 amended: the in-flight transition (the first event of every cascade)
sets isLoading true, clears the error, and keeps the previous coordinates
unchanged — in particular coordinates are absent during the initial
attempt, which starts from the initial state. -/
theorem inflight_state (env : GeoEnv) (prev : GeolocationState) :
    (getLocationWithFallback env prev).head? =
      some (Event.setState { coordinates := prev.coordinates, error := none,
                             isLoading := true }) ∧
      initialState.coordinates = none :=
  ⟨rfl, rfl⟩

/-- C6: without a location-sensing capability, the run settles immediately
on the fixed not-supported string with coordinates absent and isLoading
false, and no getCurrentPosition call or HTTP request happens. -/
theorem unsupported_platform (env : GeoEnv) (prev : GeolocationState)
    (h : env.geolocationSupported = false) :
    resolveFinal env prev =
        { coordinates := none, error := some notSupportedMessage,
          isLoading := false } ∧
      notSupportedMessage = "Geolocation is not supported by your browser" ∧
      ∀ e ∈ getLocationWithFallback env prev,
        (∀ opts, e ≠ Event.getCurrentPosition opts) ∧
          ∀ url, e ≠ Event.fetchGet url := by
  refine ⟨?_, rfl, ?_⟩
  · unfold resolveFinal getLocationWithFallback
    simp [h, applyEvents]
  · intro e he
    unfold getLocationWithFallback at he
    rw [h] at he
    simp only [Bool.not_false, if_true, List.mem_cons, List.not_mem_nil,
      or_false] at he
    rcases he with rfl | rfl <;> exact ⟨fun _ => by simp, fun _ => by simp⟩

/-- Witness for unsupported_platform at a concrete environment. -/
theorem unsupported_platform_witness :
    resolveFinal ⟨false, fun _ => .error none, .error ()⟩ initialState =
        { coordinates := none, error := some notSupportedMessage,
          isLoading := false } ∧
      notSupportedMessage = "Geolocation is not supported by your browser" ∧
      ∀ e ∈ getLocationWithFallback ⟨false, fun _ => .error none, .error ()⟩
          initialState,
        (∀ opts, e ≠ Event.getCurrentPosition opts) ∧
          ∀ url, e ≠ Event.fetchGet url :=
  unsupported_platform ⟨false, fun _ => .error none, .error ()⟩
    initialState rfl

/-- C8: the external calls of any run are an in-order prefix of the three
canonical requests: getCurrentPosition with high accuracy, timeout 10000ms
and maximumAge 300000ms; getCurrentPosition with high accuracy disabled,
timeout 15000ms and maximumAge 600000ms; and one GET of the fixed IP
endpoint carrying no timeout control. -/
theorem canonical_configurations (env : GeoEnv) (prev : GeolocationState) :
    ∃ k, externalCalls (getLocationWithFallback env prev) =
      ([Event.getCurrentPosition
          { enableHighAccuracy := true, timeout := 10000,
            maximumAge := 300000 },
        Event.getCurrentPosition
          { enableHighAccuracy := false, timeout := 15000,
            maximumAge := 600000 },
        Event.fetchGet "https://ipapi.co/json/"]).take k := by
  unfold getLocationWithFallback
  cases hs : env.geolocationSupported with
  | false => exact ⟨0, by simp [externalCalls]⟩
  | true =>
    rcases h1 : env.geo highAccuracyOptions with e1 | p1
    · rcases h2 : env.geo lowAccuracyOptions with e2 | p2
      · rcases h3 : tryIPGeolocation env.fetchResult with u | c
        · exact ⟨3, by simp [externalCalls, h1, h2, h3, highAccuracyOptions,
            lowAccuracyOptions, ipGeolocationUrl]⟩
        · exact ⟨3, by simp [externalCalls, h1, h2, h3, highAccuracyOptions,
            lowAccuracyOptions, ipGeolocationUrl]⟩
      · exact ⟨2, by simp [externalCalls, h1, h2, highAccuracyOptions,
          lowAccuracyOptions]⟩
    · exact ⟨1, by simp [externalCalls, h1, highAccuracyOptions]⟩

/-- C9: the manual trigger runs the identical cascade, and its first state
transition sets isLoading and clears the error before any strategy call. -/
theorem manual_trigger_identical (env : GeoEnv) (prev : GeolocationState) :
    getLocation env prev = getLocationWithFallback env prev ∧
      ∃ s, (getLocation env prev).head? = some (Event.setState s) ∧
        s.isLoading = true ∧ s.error = none ∧
        s.coordinates = prev.coordinates :=
  ⟨rfl, { prev with isLoading := true, error := none }, rfl, rfl, rfl, rfl⟩

/-- Every final-failure message is one of the five fixed strings. -/
theorem selectErrorMessage_mem (g : GeoRejection) :
    selectErrorMessage g ∈ allowedErrorMessages := by
  unfold selectErrorMessage
  split
  · split <;> simp [allowedErrorMessages]
  · simp [allowedErrorMessages]

/-- C10: in every run, each state the hook stores has either no error or one
of exactly five fixed strings, and the initial state has no error. -/
theorem visible_errors_among_five (env : GeoEnv) (prev : GeolocationState) :
    initialState.error = none ∧
      List.Forall
        (fun e => match e with
          | Event.setState s =>
              s.error = none ∨ ∃ m ∈ allowedErrorMessages, s.error = some m
          | _ => True)
        (getLocationWithFallback env prev) := by
  refine ⟨rfl, ?_⟩
  unfold getLocationWithFallback
  cases hs : env.geolocationSupported with
  | false => simp [List.Forall, allowedErrorMessages]
  | true =>
    rcases h1 : env.geo highAccuracyOptions with e1 | p1
    · rcases h2 : env.geo lowAccuracyOptions with e2 | p2
      · rcases h3 : tryIPGeolocation env.fetchResult with u | c
        · have hmem := selectErrorMessage_mem (e2 <|> e1)
          simp only [allowedErrorMessages, List.mem_cons,
            List.not_mem_nil, or_false] at hmem
          simp [List.Forall, h1, h2, h3, allowedErrorMessages]
          exact hmem
        · simp [List.Forall, h1, h2, h3]
      · simp [List.Forall, h1, h2]
    · simp [List.Forall, h1]

end WeatherWeb
